import Mathlib

/-!
Shallow embedding of `src/Deksel/ledstrip/ledstrip.ino`: a serial-command
controller that maps waste-category commands onto four NeoPixel LED strips.

The sketch keeps a single global `currentChoice : Choice`, parses one line of
serial input per loop iteration (`handleSerial`), and re-renders all four
strips from the current choice every cycle (`showChoice`).  Strips are
modelled as lists of 32-bit packed colors (one entry per LED); the serial
output is modelled as the list of lines printed so far.
-/

namespace Ledstrip

/-- `#define NUM_LEDS 5` -/
def NUM_LEDS : Nat := 5

/-- `#define PIN1 7` -/
def PIN1 : Nat := 7

/-- `#define PIN2 4` -/
def PIN2 : Nat := 4

/-- `#define PIN3 5` -/
def PIN3 : Nat := 5

/-- `#define PIN4 6` -/
def PIN4 : Nat := 6

/-- `enum Choice { NONE, PMD, REST, KARTON };` -/
inductive Choice where
  | NONE
  | PMD
  | REST
  | KARTON
deriving DecidableEq, Repr

open Choice

/-- `Adafruit_NeoPixel::Color(r, g, b)` packs three 8-bit channels into a
`uint32_t` as `(r << 16) | (g << 8) | b`. -/
def Color (r g b : Nat) : Nat := (r % 256) * 65536 + (g % 256) * 256 + (b % 256)

/-- `uint32_t RED = strip1.Color(255, 0, 0);` in `showChoice`. -/
def RED : Nat := Color 255 0 0

/-- `uint32_t GREEN = strip1.Color(0, 255, 0);` in `showChoice`. -/
def GREEN : Nat := Color 0 255 0

/-- `uint32_t OFF = strip1.Color(0, 0, 0);` in `showChoice`. -/
def OFF : Nat := Color 0 0 0

/-- `isspace(c)` of the C library, as used by Arduino `String::trim`:
space, horizontal tab, line feed, vertical tab, form feed, carriage return. -/
def arduinoIsSpace (ch : Char) : Bool :=
  ch = ' ' || ch = '\t' || ch = '\n' || ch = '\x0b' || ch = '\x0c' || ch = '\r'

/-- `tolower(c)` of the C library, as used by Arduino `String::toLowerCase`:
maps an ASCII uppercase letter 32 code points down, leaves others alone. -/
def arduinoToLowerChar (ch : Char) : Char :=
  if 'A' ≤ ch ∧ ch ≤ 'Z' then Char.ofNat (ch.toNat + 32) else ch

/-- Arduino `String::trim()`: removes leading and trailing `isspace`
characters. -/
def arduinoTrim (s : String) : String :=
  ⟨((s.data.dropWhile arduinoIsSpace).reverse.dropWhile arduinoIsSpace).reverse⟩

/-- Arduino `String::toLowerCase()`: lowercases every character. -/
def arduinoToLowerCase (s : String) : String :=
  ⟨s.data.map arduinoToLowerChar⟩

/-- The observable state of the sketch: the global `currentChoice`, the pixel
contents of the four strips (each a list of `NUM_LEDS` packed colors), and
the lines printed to `Serial` so far (oldest first). -/
structure DeviceState where
  currentChoice : Choice
  strip1 : List Nat
  strip2 : List Nat
  strip3 : List Nat
  strip4 : List Nat
  output : List String
deriving DecidableEq, Repr

/-- `fillStrip(strip, color)`: sets every one of the `NUM_LEDS` pixels of a
strip to `color` and flushes (`strip.show()`); the flushed pixel contents. -/
def fillStrip (color : Nat) : List Nat := List.replicate NUM_LEDS color

/-- `clearAll()`: `strip.clear()` zeroes all pixel data (color 0 = OFF) on
each of the four strips, then `strip.show()` flushes each. -/
def clearAll (s : DeviceState) : DeviceState :=
  { s with
    strip1 := List.replicate NUM_LEDS 0
    strip2 := List.replicate NUM_LEDS 0
    strip3 := List.replicate NUM_LEDS 0
    strip4 := List.replicate NUM_LEDS 0 }

/-- The `if/else` chain of `handleSerial` (lines 51-77), applied to the
already trimmed and lowercased command string `cmd`. -/
def dispatch (cmd : String) (s : DeviceState) : DeviceState :=
  if cmd = "pmd" then
    { s with
      currentChoice := PMD
      output := s.output ++ ["OK: PMD geselecteerd (strip op pin 7 wordt GROEN)."] }
  else if cmd = "restafval" ∨ cmd = "rest" then
    { s with
      currentChoice := REST
      output := s.output ++ ["OK: RESTAFVAL geselecteerd (strip op pin 4 wordt GROEN)."] }
  else if cmd = "karton" then
    { s with
      currentChoice := KARTON
      output := s.output ++ ["OK: KARTON geselecteerd (strip op pin 5 wordt GROEN)."] }
  else if cmd = "off" then
    let s := { s with currentChoice := NONE }
    let s := clearAll s
    { s with output := s.output ++ ["OK: alles uit."] }
  else if cmd = "status" then
    { s with
      output := s.output ++
        ["Huidige keuze: " ++
          (if s.currentChoice = PMD then "PMD"
           else if s.currentChoice = REST then "RESTAFVAL"
           else if s.currentChoice = KARTON then "KARTON"
           else "NONE")] }
  else
    { s with
      output := s.output ++
        ["Onbekend commando. Gebruik: pmd | restafval | karton | status | off"] }

/-- `handleSerial()`: returns immediately when no serial line is available
(`if (!Serial.available()) return;`), otherwise reads one line, trims
leading/trailing whitespace, lowercases it and runs the command chain. -/
def handleSerial (input : Option String) (s : DeviceState) : DeviceState :=
  match input with
  | none => s
  | some line => dispatch (arduinoToLowerCase (arduinoTrim line)) s

/-- The four local colors `c1..c4` computed by `showChoice` (lines 86-94):
default every strip to `RED` (or `OFF` when `NONE`), then override the
chosen strip to `GREEN`. -/
def showChoiceColors (c : Choice) : Nat × Nat × Nat × Nat :=
  let c1 := if c = NONE then OFF else RED
  let c2 := if c = NONE then OFF else RED
  let c3 := if c = NONE then OFF else RED
  let c4 := if c = NONE then OFF else RED
  let c1 := if c = PMD then GREEN else c1
  let c2 := if c = REST then GREEN else c2
  let c3 := if c = KARTON then GREEN else c3
  (c1, c2, c3, c4)

/-- `showChoice(c)`: computes the four colors and fills/flushes each strip. -/
def showChoice (c : Choice) (s : DeviceState) : DeviceState :=
  let cs := showChoiceColors c
  { s with
    strip1 := fillStrip cs.1
    strip2 := fillStrip cs.2.1
    strip3 := fillStrip cs.2.2.1
    strip4 := fillStrip cs.2.2.2 }

/-- One iteration of `loop()`: `handleSerial(); showChoice(currentChoice);`
(the trailing `delay(50)` has no observable state effect). -/
def loopStep (input : Option String) (s : DeviceState) : DeviceState :=
  let s1 := handleSerial input s
  showChoice s1.currentChoice s1

/-- The state right after `setup()`: `currentChoice = NONE`, all strips
cleared by `clearAll()`, and the two banner lines printed. -/
def initialState : DeviceState :=
  { currentChoice := NONE
    strip1 := List.replicate NUM_LEDS 0
    strip2 := List.replicate NUM_LEDS 0
    strip3 := List.replicate NUM_LEDS 0
    strip4 := List.replicate NUM_LEDS 0
    output := ["Typ: pmd | restafval | karton", "Extra: status | off"] }

/-- The pins of the four strips, in strip order (`strip1..strip4` are
constructed on `PIN1..PIN4` respectively). -/
def stripPins : List Nat := [PIN1, PIN2, PIN3, PIN4]

/-- The four colors of `showChoice` as a list, in strip order. -/
def showChoiceList (c : Choice) : List Nat :=
  [(showChoiceColors c).1, (showChoiceColors c).2.1,
   (showChoiceColors c).2.2.1, (showChoiceColors c).2.2.2]

/-- The three waste categories handled by the three select branches of
`handleSerial` (indexing them for claims that quantify over categories). -/
inductive Category where
  | pmd
  | rest
  | karton
deriving DecidableEq, Repr

/-- The `Choice` value a category's select branch stores. -/
def Category.toChoice : Category → Choice
  | .pmd => PMD
  | .rest => REST
  | .karton => KARTON

/-- The command strings (post trim/lowercase) that select each category:
`"pmd"`, `"restafval"`/`"rest"`, `"karton"`. -/
def Category.commands : Category → List String
  | .pmd => ["pmd"]
  | .rest => ["restafval", "rest"]
  | .karton => ["karton"]

/-- The category name used in the acknowledgement line. -/
def Category.ackName : Category → String
  | .pmd => "PMD"
  | .rest => "RESTAFVAL"
  | .karton => "KARTON"

/-- The (0-based) index of the strip that `showChoice` turns green for the
category: `c1`/strip1 for PMD, `c2`/strip2 for REST, `c3`/strip3 for KARTON. -/
def Category.greenIdx : Category → Nat
  | .pmd => 0
  | .rest => 1
  | .karton => 2

/-- The full acknowledgement line `handleSerial` prints for the category. -/
def Category.ack : Category → String
  | .pmd => "OK: PMD geselecteerd (strip op pin 7 wordt GROEN)."
  | .rest => "OK: RESTAFVAL geselecteerd (strip op pin 4 wordt GROEN)."
  | .karton => "OK: KARTON geselecteerd (strip op pin 5 wordt GROEN)."

/-- C1: for every Selection value, `showChoice` assigns each of the four
strips a color determined solely by the Selection (the prior strip contents
are irrelevant): when the Selection is `NONE` every strip gets `OFF`; when it
is a category, the strip bound to that category gets `GREEN` and every other
strip gets the neutral `RED`. -/
theorem C1_showChoice_by_selection (c : Choice) (s₁ s₂ : DeviceState) :
    ((showChoice c s₁).strip1, (showChoice c s₁).strip2,
     (showChoice c s₁).strip3, (showChoice c s₁).strip4) =
    ((showChoice c s₂).strip1, (showChoice c s₂).strip2,
     (showChoice c s₂).strip3, (showChoice c s₂).strip4) ∧
    (showChoice c s₁).strip1 = fillStrip (showChoiceColors c).1 ∧
    (showChoice c s₁).strip2 = fillStrip (showChoiceColors c).2.1 ∧
    (showChoice c s₁).strip3 = fillStrip (showChoiceColors c).2.2.1 ∧
    (showChoice c s₁).strip4 = fillStrip (showChoiceColors c).2.2.2 ∧
    showChoiceColors c =
      (match c with
       | NONE => (OFF, OFF, OFF, OFF)
       | PMD => (GREEN, RED, RED, RED)
       | REST => (RED, GREEN, RED, RED)
       | KARTON => (RED, RED, GREEN, RED)) := by
  cases c <;> exact ⟨rfl, rfl, rfl, rfl, rfl, rfl⟩

/-- C3: processing `off` from any prior state sets the Selection to `NONE`
and, within the same `handleSerial` call (via `clearAll`, not deferred to the
next render pass), forces all four strips to all-`OFF` pixels; the
acknowledgement `OK: alles uit.` is printed. -/
theorem C3_off_clears_all (s : DeviceState) :
    (handleSerial (some "off") s).currentChoice = NONE ∧
    (handleSerial (some "off") s).strip1 = List.replicate NUM_LEDS OFF ∧
    (handleSerial (some "off") s).strip2 = List.replicate NUM_LEDS OFF ∧
    (handleSerial (some "off") s).strip3 = List.replicate NUM_LEDS OFF ∧
    (handleSerial (some "off") s).strip4 = List.replicate NUM_LEDS OFF ∧
    (handleSerial (some "off") s).output = s.output ++ ["OK: alles uit."] := by
  exact ⟨rfl, rfl, rfl, rfl, rfl, rfl⟩

/-- C5: processing `status` leaves the Selection (and the strips) unchanged
and appends exactly one line `Huidige keuze: <name>` where the name matches
the current Selection (`PMD`, `RESTAFVAL`, `KARTON`, or `NONE`). -/
theorem C5_status_reports_current (s : DeviceState) :
    handleSerial (some "status") s =
      { s with
        output := s.output ++
          ["Huidige keuze: " ++
            (match s.currentChoice with
             | PMD => "PMD"
             | REST => "RESTAFVAL"
             | KARTON => "KARTON"
             | NONE => "NONE")] } ∧
    (handleSerial (some "status") s).currentChoice = s.currentChoice := by
  cases hc : s.currentChoice <;>
    simp [handleSerial, dispatch, arduinoTrim, arduinoToLowerCase,
      arduinoToLowerChar, arduinoIsSpace, hc]

/-- C7: the fourth strip (no bound category) is never assigned `GREEN` by
`showChoice`: it gets `OFF` for `NONE` and the neutral `RED` otherwise; and
the number of strips assigned `GREEN` is exactly one for a category
selection and zero for `NONE`. -/
theorem C7_fourth_strip_never_selected (c : Choice) :
    (showChoiceColors c).2.2.2 ≠ GREEN ∧
    (showChoiceColors c).2.2.2 = (if c = NONE then OFF else RED) ∧
    (showChoiceList c).count GREEN = (if c = NONE then 0 else 1) := by
  cases c <;> refine ⟨by decide, rfl, by decide⟩

/-- C8: one `loop()` iteration always recomputes the four strip colors from
the post-input Selection and applies them, whatever the input was (including
none); and when no line is available, `handleSerial` returns the state
untouched, so the cycle goes straight to rendering. -/
theorem C8_render_every_cycle (s : DeviceState) (input : Option String) :
    (loopStep input s).strip1 =
      fillStrip (showChoiceColors (handleSerial input s).currentChoice).1 ∧
    (loopStep input s).strip2 =
      fillStrip (showChoiceColors (handleSerial input s).currentChoice).2.1 ∧
    (loopStep input s).strip3 =
      fillStrip (showChoiceColors (handleSerial input s).currentChoice).2.2.1 ∧
    (loopStep input s).strip4 =
      fillStrip (showChoiceColors (handleSerial input s).currentChoice).2.2.2 ∧
    handleSerial none s = s ∧
    loopStep none s = showChoice s.currentChoice s := by
  exact ⟨rfl, rfl, rfl, rfl, rfl, rfl⟩

/-- C2: `handleSerial` first trims and lowercases the line, then maps exactly
this vocabulary: `pmd` selects PMD, `restafval` and `rest` have the identical
REST-selecting effect, `karton` selects KARTON, `off` clears, `status`
queries, anything else produces the unrecognized-command error; two lines
with the same trimmed/lowercased form are processed identically. -/
theorem C2_vocabulary (s : DeviceState) :
    (∀ line, handleSerial (some line) s =
      dispatch (arduinoToLowerCase (arduinoTrim line)) s) ∧
    dispatch "pmd" s =
      { s with
        currentChoice := PMD
        output := s.output ++
          ["OK: PMD geselecteerd (strip op pin 7 wordt GROEN)."] } ∧
    dispatch "restafval" s = dispatch "rest" s ∧
    dispatch "rest" s =
      { s with
        currentChoice := REST
        output := s.output ++
          ["OK: RESTAFVAL geselecteerd (strip op pin 4 wordt GROEN)."] } ∧
    dispatch "karton" s =
      { s with
        currentChoice := KARTON
        output := s.output ++
          ["OK: KARTON geselecteerd (strip op pin 5 wordt GROEN)."] } ∧
    (dispatch "off" s).currentChoice = NONE ∧
    (dispatch "status" s).currentChoice = s.currentChoice ∧
    (∀ l₁ l₂, arduinoToLowerCase (arduinoTrim l₁) = arduinoToLowerCase (arduinoTrim l₂) →
      handleSerial (some l₁) s = handleSerial (some l₂) s) ∧
    (∀ cmd, cmd ∉ (["pmd", "restafval", "rest", "karton", "off", "status"] : List String) →
      dispatch cmd s =
        { s with
          output := s.output ++
            ["Onbekend commando. Gebruik: pmd | restafval | karton | status | off"] }) := by
  refine ⟨fun line => rfl, by simp [dispatch], by simp [dispatch],
    by simp [dispatch], by simp [dispatch], by simp [dispatch, clearAll],
    by simp [dispatch], fun l₁ l₂ h => by simp [handleSerial, h], ?_⟩
  intro cmd h
  simp only [List.mem_cons, List.not_mem_nil, or_false, not_or] at h
  obtain ⟨h1, h2, h3, h4, h5, h6⟩ := h
  simp [dispatch, h1, h2, h3, h4, h5, h6]

/-- Witness for C2: a whitespace/case variant of `pmd` is processed like the
canonical form, and a garbage line takes the unrecognized branch. -/
theorem C2_vocabulary_witness :
    handleSerial (some " PMD ") initialState = handleSerial (some "pmd") initialState ∧
    dispatch "bananen" initialState =
      { initialState with
        output := initialState.output ++
          ["Onbekend commando. Gebruik: pmd | restafval | karton | status | off"] } :=
  ⟨(C2_vocabulary initialState).2.2.2.2.2.2.2.1 " PMD " "pmd" (by decide),
   (C2_vocabulary initialState).2.2.2.2.2.2.2.2 "bananen" (by decide)⟩

/-- C4: a line whose trimmed/lowercased form is outside the vocabulary leaves
the whole state unchanged except for appending the unrecognized-command
error line; in particular the Selection and the strips are untouched, and
processing is a total step of the loop (never fatal). -/
theorem C4_unrecognized_preserves_state (s : DeviceState) (line : String)
    (h : arduinoToLowerCase (arduinoTrim line) ∉
      (["pmd", "restafval", "rest", "karton", "off", "status"] : List String)) :
    handleSerial (some line) s =
      { s with
        output := s.output ++
          ["Onbekend commando. Gebruik: pmd | restafval | karton | status | off"] } := by
  simp only [handleSerial]
  simp only [List.mem_cons, List.not_mem_nil, or_false, not_or] at h
  obtain ⟨h1, h2, h3, h4, h5, h6⟩ := h
  simp [dispatch, h1, h2, h3, h4, h5, h6]

/-- Witness for C4: the garbage line `bananen` on a PMD-selected state only
appends the error line. -/
theorem C4_unrecognized_witness :
    handleSerial (some "bananen") (dispatch "pmd" initialState) =
      { dispatch "pmd" initialState with
        output := (dispatch "pmd" initialState).output ++
          ["Onbekend commando. Gebruik: pmd | restafval | karton | status | off"] } :=
  C4_unrecognized_preserves_state (dispatch "pmd" initialState) "bananen" (by decide)

/-- C6: for every category and every prior state, any of the category's
select commands results in that category being current; processing it a
second time leaves the Selection, the strips and the computed color
assignment unchanged while the acknowledgement line is emitted again. -/
theorem C6_select_idempotent (s : DeviceState) (k : Category) (cmd : String)
    (h : cmd ∈ k.commands) :
    (handleSerial (some cmd) s).currentChoice = k.toChoice ∧
    (handleSerial (some cmd) (handleSerial (some cmd) s)).currentChoice =
      (handleSerial (some cmd) s).currentChoice ∧
    (handleSerial (some cmd) (handleSerial (some cmd) s)).strip1 =
      (handleSerial (some cmd) s).strip1 ∧
    (handleSerial (some cmd) (handleSerial (some cmd) s)).strip2 =
      (handleSerial (some cmd) s).strip2 ∧
    (handleSerial (some cmd) (handleSerial (some cmd) s)).strip3 =
      (handleSerial (some cmd) s).strip3 ∧
    (handleSerial (some cmd) (handleSerial (some cmd) s)).strip4 =
      (handleSerial (some cmd) s).strip4 ∧
    showChoiceColors (handleSerial (some cmd) (handleSerial (some cmd) s)).currentChoice =
      showChoiceColors (handleSerial (some cmd) s).currentChoice ∧
    (handleSerial (some cmd) (handleSerial (some cmd) s)).output =
      (handleSerial (some cmd) s).output ++ [k.ack] := by
  cases k with
  | pmd =>
    simp only [Category.commands, List.mem_singleton] at h
    subst h
    have e : arduinoToLowerCase (arduinoTrim "pmd") = "pmd" := by decide
    simp [handleSerial, e, dispatch, Category.toChoice, Category.ack]
  | rest =>
    simp only [Category.commands, List.mem_cons, List.not_mem_nil, or_false] at h
    rcases h with h | h <;> subst h
    · have e : arduinoToLowerCase (arduinoTrim "restafval") = "restafval" := by decide
      simp [handleSerial, e, dispatch, Category.toChoice, Category.ack]
    · have e : arduinoToLowerCase (arduinoTrim "rest") = "rest" := by decide
      simp [handleSerial, e, dispatch, Category.toChoice, Category.ack]
  | karton =>
    simp only [Category.commands, List.mem_singleton] at h
    subst h
    have e : arduinoToLowerCase (arduinoTrim "karton") = "karton" := by decide
    simp [handleSerial, e, dispatch, Category.toChoice, Category.ack]

/-- Witness for C6: the alias `rest` selects REST from a fresh start. -/
theorem C6_select_idempotent_witness :
    (handleSerial (some "rest") initialState).currentChoice = Category.rest.toChoice :=
  (C6_select_idempotent initialState .rest "rest" (by decide)).1

/-- C9: every successful select command's acknowledgement names exactly the
pin of the strip that `showChoice` turns green for that category: the ack is
`OK: <NAME> geselecteerd (strip op pin <p> wordt GROEN).` where `p` is the
pin (in strip order `PIN1..PIN4`) of the strip whose color is `GREEN` under
the resulting Selection. -/
theorem C9_ack_pin_matches_green_strip (s : DeviceState) (k : Category) (cmd : String)
    (h : cmd ∈ k.commands) :
    (handleSerial (some cmd) s).output =
      s.output ++
        ["OK: " ++ k.ackName ++ " geselecteerd (strip op pin " ++
          toString (stripPins.getD k.greenIdx 0) ++ " wordt GROEN)."] ∧
    (showChoiceList (handleSerial (some cmd) s).currentChoice).getD k.greenIdx 0 = GREEN ∧
    (showChoiceList k.toChoice).count GREEN = 1 := by
  cases k with
  | pmd =>
    simp only [Category.commands, List.mem_singleton] at h
    subst h
    have e : arduinoToLowerCase (arduinoTrim "pmd") = "pmd" := by decide
    refine ⟨?_, by simp [handleSerial, e, dispatch]; decide, by decide⟩
    simp only [handleSerial, e, dispatch]
    simp
    decide
  | rest =>
    simp only [Category.commands, List.mem_cons, List.not_mem_nil, or_false] at h
    rcases h with h | h <;> subst h
    · have e : arduinoToLowerCase (arduinoTrim "restafval") = "restafval" := by decide
      refine ⟨?_, by simp [handleSerial, e, dispatch]; decide, by decide⟩
      simp only [handleSerial, e, dispatch]
      simp
      decide
    · have e : arduinoToLowerCase (arduinoTrim "rest") = "rest" := by decide
      refine ⟨?_, by simp [handleSerial, e, dispatch]; decide, by decide⟩
      simp only [handleSerial, e, dispatch]
      simp
      decide
  | karton =>
    simp only [Category.commands, List.mem_singleton] at h
    subst h
    have e : arduinoToLowerCase (arduinoTrim "karton") = "karton" := by decide
    refine ⟨?_, by simp [handleSerial, e, dispatch]; decide, by decide⟩
    simp only [handleSerial, e, dispatch]
    simp
    decide

/-- Witness for C9: `pmd` acknowledges pin 7 and strip1 turns green. -/
theorem C9_ack_pin_witness :
    (handleSerial (some "pmd") initialState).output =
      initialState.output ++
        ["OK: " ++ Category.pmd.ackName ++ " geselecteerd (strip op pin " ++
          toString (stripPins.getD Category.pmd.greenIdx 0) ++ " wordt GROEN)."] :=
  (C9_ack_pin_matches_green_strip initialState .pmd "pmd" (by decide)).1

/-- C10: a line that is empty or all whitespace trims to the empty string,
which matches no vocabulary entry, so processing takes the
unrecognized-command branch: the error line is emitted and the Selection
(and everything else) is unchanged. -/
theorem C10_blank_line_unrecognized (s : DeviceState) (line : String)
    (h : ∀ ch ∈ line.data, arduinoIsSpace ch) :
    handleSerial (some line) s =
      { s with
        output := s.output ++
          ["Onbekend commando. Gebruik: pmd | restafval | karton | status | off"] } := by
  have ht : arduinoTrim line = "" := by
    have h1 : line.data.dropWhile arduinoIsSpace = [] :=
      List.dropWhile_eq_nil_iff.mpr (by simpa using h)
    simp [arduinoTrim, h1]
  simp only [handleSerial, ht]
  simp [arduinoToLowerCase, dispatch]

/-- Witness for C10: a line of two spaces yields the error message on a
fresh start. -/
theorem C10_blank_line_witness :
    handleSerial (some "  ") initialState =
      { initialState with
        output := initialState.output ++
          ["Onbekend commando. Gebruik: pmd | restafval | karton | status | off"] } :=
  C10_blank_line_unrecognized initialState "  " (by decide)

end Ledstrip
